import Mathlib

/-!
# Catalog Builder backend — shallow embedding

A shallow embedding of `src/backend/main.py`, the single-endpoint FastAPI
service that validates a `GenerateRequest`, calls a text-generation
collaborator (`create_product_brief`), then an image-generation collaborator
(`create_product_images`), and merges both results into a `GenerateResponse`.

The two external collaborators are black boxes: their behaviour on a given
request is a parameter (`CollabBehavior`).  The handler `generate_content`
is embedded as a pure function from the validated payload and the
collaborator behaviour to a result (`Except PyExn GenerateResponse`)
together with the trace of collaborator invocations (`List Event`), the
sequential trace modelling the strictly sequential `await`s of the source.
-/

namespace CatalogBuilder

/-- Python exceptions that reach the `/generate` handler boundary:
`HTTPException(status_code, detail)` and any other exception carrying its
string representation. -/
inductive PyExn where
  | http (status : Nat) (detail : String)
  | other (msg : String)
  deriving DecidableEq, Repr

/-- An inbound JSON payload for `POST /generate`, before pydantic
validation: each field may be absent.  (Fields of the wrong JSON type are
rejected by pydantic as well; the embedding works above that layer, so a
present field already carries its Python type.) -/
structure RawPayload where
  product_name : Option String
  keywords : Option (List String)
  country : Option String
  language : Option String
  deriving DecidableEq, Repr

/-- `GenerateRequest` of `main.py` lines 40–44: the validated request
model.  `product_name` has pydantic bounds `min_length=2, max_length=150`,
`country` `2–120`, `language` `2–60`, and `keywords` defaults to `[]`. -/
structure GenerateRequest where
  product_name : String
  keywords : List String
  country : String
  language : String
  deriving DecidableEq, Repr

/-- The pydantic field-length constraints of `GenerateRequest`
(`main.py` lines 41–44), as a decidable predicate on the present values. -/
def requestBoundsOk (product_name country language : String) : Prop :=
  2 ≤ product_name.length ∧ product_name.length ≤ 150 ∧
  2 ≤ country.length ∧ country.length ≤ 120 ∧
  2 ≤ language.length ∧ language.length ≤ 60

instance (pn c l : String) : Decidable (requestBoundsOk pn c l) := by
  unfold requestBoundsOk; infer_instance

/-- Pydantic validation of the request body: the three required string
fields must be present with lengths in bounds; `keywords` defaults to the
empty list when absent (`default_factory=list`).  Returns `none` when
FastAPI rejects the body with a client-error (422) response. -/
def validateRequest (p : RawPayload) : Option GenerateRequest :=
  match p.product_name, p.country, p.language with
  | some pn, some c, some l =>
      if requestBoundsOk pn c l then
        some ⟨pn, p.keywords.getD [], c, l⟩
      else
        none
  | _, _, _ => none

/-- Modelled from the spec: pydantic's `HttpUrl` type (library code, not in
`src/`) — "url: absolute URI" / "a well-formed absolute URI".  Modelled as:
an `http` or `https` scheme followed by `://` and a non-empty host part;
values that pass are carried through unchanged. -/
def isHttpUrl (s : String) : Bool :=
  ("http://".data.isPrefixOf s.data && decide (7 < s.data.length)) ||
  ("https://".data.isPrefixOf s.data && decide (8 < s.data.length))

/-- A `sources` array element of the brief document, as a JSON object whose
`name` and `url` keys may each be absent. -/
structure SourceObj where
  name : Option String
  url : Option String
  deriving DecidableEq, Repr

/-- `Source` of `main.py` lines 47–49: `name: str`, `url: HttpUrl`.
The embedding keeps the validated url as the string that passed
`isHttpUrl`. -/
structure Source where
  name : String
  url : String
  deriving DecidableEq, Repr

/-- The parsed brief document returned by the text-generation collaborator:
a JSON object in which any of the four keys may be absent (the collaborator
is a black box, so the embedding does not assume schema conformance). -/
structure Brief where
  product_description : Option String
  bullet_points : Option (List String)
  marketing_blurb : Option String
  sources : Option (List SourceObj)
  deriving DecidableEq, Repr

/-- `GenerateResponse` of `main.py` lines 52–57. -/
structure GenerateResponse where
  product_description : String
  bullet_points : List String
  marketing_blurb : String
  image_urls : List String
  sources : List Source
  deriving DecidableEq, Repr

/-- The structural constraints of the JSON schema submitted with the text
call (`main.py` lines 104–137): the four keys are required,
`bullet_points` has `minItems 3` / `maxItems 6`, and every source object
has its required `name` and `url` keys.  (`format: uri` is an annotation,
not a structural constraint.) -/
def briefConformsSchema (b : Brief) : Prop :=
  b.product_description.isSome ∧
  b.marketing_blurb.isSome ∧
  (∃ bps, b.bullet_points = some bps ∧ 3 ≤ bps.length ∧ bps.length ≤ 6) ∧
  (∃ srcs, b.sources = some srcs ∧
    ∀ s ∈ srcs, s.name.isSome ∧ s.url.isSome)

/-- One content node of a Responses-API output item; `parsed` may be an
absent attribute (accessing it raises `AttributeError`). -/
structure ContentNode where
  parsed : Option Brief
  deriving DecidableEq, Repr

/-- One output item of a Responses-API reply; `content` may be an absent
attribute. -/
structure OutputItem where
  content : Option (List ContentNode)
  deriving DecidableEq, Repr

/-- A reply envelope of the text-generation collaborator; `output` may be
an absent attribute. -/
structure TextReply where
  output : Option (List OutputItem)
  deriving DecidableEq, Repr

/-- The behaviour of the text-generation collaborator on this request:
either the `await client.responses.create(...)` call raises, or it returns
a reply envelope. -/
inductive TextOutcome where
  | raises (msg : String)
  | replies (r : TextReply)
  deriving DecidableEq, Repr

/-- One element of `response.data` from the Images API; `url` is read with
`getattr(data, "url", None)`, so an absent attribute behaves as `none`. -/
structure ImageDataItem where
  url : Option String
  deriving DecidableEq, Repr

/-- A reply envelope of the image-generation collaborator. -/
structure ImagesReply where
  data : List ImageDataItem
  deriving DecidableEq, Repr

/-- The behaviour of the image-generation collaborator on this request. -/
inductive ImageOutcome where
  | raises (msg : String)
  | replies (r : ImagesReply)
  deriving DecidableEq, Repr

/-- The behaviour of both collaborators on one request. -/
structure CollabBehavior where
  text : TextOutcome
  image : ImageOutcome
  deriving DecidableEq, Repr

/-- `response.output[0].content[0].parsed` of `main.py` line 141: `none`
exactly when that expression raises `AttributeError` or `IndexError`. -/
def extractParsed (r : TextReply) : Option Brief :=
  match r.output with
  | none => none
  | some [] => none
  | some (item :: _) =>
      match item.content with
      | none => none
      | some [] => none
      | some (node :: _) => node.parsed

/-- `SYSTEM_PROMPT` of `main.py` lines 60–68 (fixed system instruction;
its exact text is irrelevant to the claims, kept for fidelity of shape). -/
def SYSTEM_PROMPT : String :=
  "You are an e-commerce localization expert. Given a product name, optional keywords, target country, and target language, create localized marketing content."

/-- The comma-join of the keywords, `", ".join(payload.keywords)`
(`main.py` line 96). -/
def joinedKeywords (kws : List String) : String :=
  String.intercalate ", " kws

/-- `", ".join(payload.keywords) or "(none)"` (`main.py` line 96): Python
`or` takes the right operand exactly when the joined string is falsy, i.e.
empty. -/
def keywordsField (kws : List String) : String :=
  if joinedKeywords kws = "" then "(none)" else joinedKeywords kws

/-- The per-request user message of the text call (`main.py` lines 92–99). -/
def userMessage (p : GenerateRequest) : String :=
  "Product name: " ++ p.product_name ++
  "\nKeywords: " ++ keywordsField p.keywords ++
  "\nCountry: " ++ p.country ++
  "\nLanguage: " ++ p.language ++ "\n"

/-- `create_product_brief` (`main.py` lines 76–145) under a given text
collaborator outcome: a network-level exception propagates as itself; a
reply whose parsed document cannot be extracted raises
`HTTPException(502, "Malformed response from language model")`; otherwise
the parsed brief is returned. -/
def create_product_brief (o : TextOutcome) : Except PyExn Brief :=
  match o with
  | .raises msg => .error (.other msg)
  | .replies r =>
      match extractParsed r with
      | none => .error (.http 502 "Malformed response from language model")
      | some b => .ok b

/-- `IMAGE_PROMPT_TEMPLATE` (`main.py` lines 70–73) interpolated with the
product name and the `"; "`-join of the first three bullet points
(`main.py` lines 150–153). -/
def imagePrompt (product_name : String) (bullet_points : List String) : String :=
  "Generate a product photo style image for " ++ "\x27" ++ product_name ++ "\x27" ++
  ". The image should align with the following marketing context: " ++
  String.intercalate "; " (bullet_points.take 3) ++
  ". Style: clean studio lighting, realistic photography."

/-- The url list built from an Images-API reply (`main.py` line 163):
`[data.url for data in response.data if getattr(data, "url", None)]` —
keep, in order, exactly the urls that are present and non-empty. -/
def collectImageUrls (r : ImagesReply) : List String :=
  r.data.filterMap fun d =>
    match d.url with
    | some s => if s = "" then none else some s
    | none => none

/-- `Source(**source)` (`main.py` line 187): pydantic raises
`ValidationError` when `name` or `url` is absent or `url` is not a valid
`HttpUrl`.  The error strings stand in for pydantic's message text. -/
def validateSource (s : SourceObj) : Except String Source :=
  match s.name, s.url with
  | none, _ => .error "1 validation error for Source: name field required"
  | _, none => .error "1 validation error for Source: url field required"
  | some n, some u =>
      if isHttpUrl u then .ok ⟨n, u⟩
      else .error "1 validation error for Source: url is not a valid URL"

/-- The list comprehension `[Source(**source) for source in ...]`: the
first `ValidationError` aborts the comprehension. -/
def validateSources : List SourceObj → Except String (List Source)
  | [] => .ok []
  | s :: rest =>
      match validateSource s with
      | .error e => .error e
      | .ok v =>
          match validateSources rest with
          | .error e => .error e
          | .ok vs => .ok (v :: vs)

/-- Constructing `GenerateResponse(...)` (`main.py` lines 182–188) from the
brief, the already-bound `bullet_points` variable and the image url list,
in Python evaluation order: the keyword arguments are evaluated first
(`KeyError` on a missing brief key, `ValidationError` from `Source`),
then pydantic validates the model (`image_urls: List[HttpUrl]`).
An `.error` is the exception caught at `main.py` line 189. -/
def mergeResponse (brief : Brief) (bullet_points : List String)
    (image_urls : List String) : Except String GenerateResponse :=
  match brief.product_description with
  | none => .error "KeyError: product_description"
  | some pd =>
  match brief.marketing_blurb with
  | none => .error "KeyError: marketing_blurb"
  | some mb =>
  match brief.sources with
  | none => .error "KeyError: sources"
  | some srcObjs =>
  match validateSources srcObjs with
  | .error e => .error e
  | .ok srcs =>
      if image_urls.all isHttpUrl then
        .ok ⟨pd, bullet_points, mb, image_urls, srcs⟩
      else
        .error "1 validation error for GenerateResponse: image_urls entry is not a valid URL"

/-- A collaborator invocation, recorded in program order.  The handler
`await`s each call before continuing, so the trace is the strictly
sequential history of outbound calls. -/
inductive Event where
  | textCall (userMsg : String)
  | imageCall (prompt : String)
  deriving DecidableEq, Repr

/-- The `/generate` handler body `generate_content` (`main.py` lines
166–192) on a validated payload, as a pure function of the collaborator
behaviour.  Returns the outcome and the trace of collaborator calls:

* the text call is always issued; an `HTTPException` from
  `create_product_brief` is re-raised, any other exception becomes
  `HTTPException(502, str(exc))`;
* `brief["bullet_points"]` is read *inside* the image `try` block
  (line 176): a missing key raises `KeyError`, caught at line 178 and
  re-raised as `Image generation failed: ...` — and the image collaborator
  is then never called;
* an exception from the image call becomes
  `HTTPException(502, "Image generation failed: " + str(exc))`;
* the merge failure becomes
  `HTTPException(502, "Invalid model response: " + str(exc))`. -/
def generate_content (payload : GenerateRequest) (beh : CollabBehavior) :
    Except PyExn GenerateResponse × List Event :=
  let t0 : List Event := [.textCall (userMessage payload)]
  match create_product_brief beh.text with
  | .error (.http s d) => (.error (.http s d), t0)
  | .error (.other msg) => (.error (.http 502 msg), t0)
  | .ok brief =>
    match brief.bullet_points with
    | none =>
        (.error (.http 502 ("Image generation failed: " ++ "\x27bullet_points\x27")), t0)
    | some bullet_points =>
      let t1 : List Event :=
        t0 ++ [.imageCall (imagePrompt payload.product_name bullet_points)]
      match beh.image with
      | .raises msg =>
          (.error (.http 502 ("Image generation failed: " ++ msg)), t1)
      | .replies r =>
        let image_urls := collectImageUrls r
        match mergeResponse brief bullet_points image_urls with
        | .error e => (.error (.http 502 ("Invalid model response: " ++ e)), t1)
        | .ok resp => (.ok resp, t1)

/-- The full `POST /generate` request path: FastAPI/pydantic body
validation, then the handler.  A rejected body yields the standard
client-error (422) response and no collaborator call. -/
def handle (raw : RawPayload) (beh : CollabBehavior) :
    Except PyExn GenerateResponse × List Event :=
  match validateRequest raw with
  | none => (.error (.http 422 "request validation error"), [])
  | some req => generate_content req beh

/-- `GET /health` (`main.py` lines 195–197). -/
def health_check : List (String × String) := [("status", "ok")]

/-! ## Helper lemmas -/

/-- A source that passes `Source(**source)` construction has a url
accepted by the `HttpUrl` check. -/
lemma validateSource_ok_url {s : SourceObj} {v : Source}
    (h : validateSource s = .ok v) : isHttpUrl v.url = true := by
  unfold validateSource at h
  split at h
  · cases h
  · cases h
  · split at h
    · cases h; simp_all
    · cases h

/-- Every source surviving the comprehension `[Source(**source) for ...]`
has a url accepted by the `HttpUrl` check. -/
lemma validateSources_ok_urls : ∀ {srcs : List SourceObj} {vs : List Source},
    validateSources srcs = .ok vs → ∀ v ∈ vs, isHttpUrl v.url = true := by
  intro srcs
  induction srcs with
  | nil => intro vs h v hv; simp [validateSources] at h; subst h; cases hv
  | cons s rest ih =>
      intro vs h v hv
      unfold validateSources at h
      cases hs : validateSource s with
      | error e => rw [hs] at h; cases h
      | ok w =>
          rw [hs] at h
          cases hrest : validateSources rest with
          | error e => rw [hrest] at h; cases h
          | ok ws =>
              rw [hrest] at h
              cases h
              rcases List.mem_cons.mp hv with h1 | h2
              · subst h1; exact validateSource_ok_url hs
              · exact ih hrest v h2

/-- When all sources validate and all image urls pass the `HttpUrl` check,
`GenerateResponse(...)` construction succeeds and copies every field
verbatim. -/
lemma mergeResponse_ok_of (pdField : String) (bpsField : Option (List String))
    (mbField : String) (bps urls : List String)
    (srcObjs : List SourceObj) (vs : List Source)
    (hs : validateSources srcObjs = .ok vs)
    (hu : urls.all isHttpUrl = true) :
    mergeResponse ⟨some pdField, bpsField, some mbField, some srcObjs⟩ bps urls =
      .ok ⟨pdField, bps, mbField, urls, vs⟩ := by
  simp [mergeResponse, hs, hu]

/-- Inversion of a successful `GenerateResponse(...)` construction: the
fields come verbatim from the brief and the url list, all image urls
passed the `HttpUrl` check, and the sources passed validation. -/
lemma mergeResponse_ok_inv {b : Brief} {bps urls : List String}
    {resp : GenerateResponse} (h : mergeResponse b bps urls = .ok resp) :
    b.product_description = some resp.product_description ∧
    b.marketing_blurb = some resp.marketing_blurb ∧
    resp.bullet_points = bps ∧
    resp.image_urls = urls ∧
    urls.all isHttpUrl = true ∧
    ∃ srcObjs, b.sources = some srcObjs ∧
      validateSources srcObjs = .ok resp.sources := by
  unfold mergeResponse at h
  rcases b with ⟨pd, bpsF, mb, srcs⟩
  cases pd <;> simp_all
  cases mb <;> simp_all
  cases srcs <;> simp_all
  split at h
  · cases h
  · split at h
    · cases h
      simp_all
    · cases h

/-- The success path of the handler, fully unfolded: a validated request,
an extracted brief carrying `bullet_points`, a returning image call and a
successful merge yield exactly the merged response and the two-call
trace. -/
lemma handle_ok_of {raw : RawPayload} {req : GenerateRequest}
    {beh : CollabBehavior} {b : Brief} {bps : List String} {r : ImagesReply}
    {resp : GenerateResponse}
    (hv : validateRequest raw = some req)
    (hb : create_product_brief beh.text = .ok b)
    (hbp : b.bullet_points = some bps)
    (hi : beh.image = .replies r)
    (hm : mergeResponse b bps (collectImageUrls r) = .ok resp) :
    handle raw beh = (.ok resp,
      [.textCall (userMessage req),
       .imageCall (imagePrompt req.product_name bps)]) := by
  simp [handle, hv, generate_content, hb, hbp, hi, hm]

/-- Inversion of a successful request: success forces the full pipeline —
validation, brief extraction with `bullet_points` present, a returning
image call, and a successful merge of exactly the collected urls. -/
lemma handle_ok_inv {raw : RawPayload} {beh : CollabBehavior}
    {resp : GenerateResponse} (h : (handle raw beh).1 = .ok resp) :
    ∃ req b bps r, validateRequest raw = some req ∧
      create_product_brief beh.text = .ok b ∧
      b.bullet_points = some bps ∧
      beh.image = .replies r ∧
      mergeResponse b bps (collectImageUrls r) = .ok resp := by
  cases hv : validateRequest raw with
  | none =>
      rw [show (handle raw beh).1 = .error (.http 422 "request validation error")
        from by simp [handle, hv]] at h
      cases h
  | some req =>
  cases hb : create_product_brief beh.text with
  | error e =>
      cases e with
      | http s d =>
          rw [show (handle raw beh).1 = .error (.http s d)
            from by simp [handle, hv, generate_content, hb]] at h
          cases h
      | other m =>
          rw [show (handle raw beh).1 = .error (.http 502 m)
            from by simp [handle, hv, generate_content, hb]] at h
          cases h
  | ok b =>
  cases hbp : b.bullet_points with
  | none =>
      rw [show (handle raw beh).1 =
            .error (.http 502 ("Image generation failed: " ++ "\x27bullet_points\x27"))
        from by simp [handle, hv, generate_content, hb, hbp]] at h
      cases h
  | some bps =>
  cases hi : beh.image with
  | raises msg =>
      rw [show (handle raw beh).1 =
            .error (.http 502 ("Image generation failed: " ++ msg))
        from by simp [handle, hv, generate_content, hb, hbp, hi]] at h
      cases h
  | replies r =>
  cases hm : mergeResponse b bps (collectImageUrls r) with
  | error e =>
      rw [show (handle raw beh).1 =
            .error (.http 502 ("Invalid model response: " ++ e))
        from by simp [handle, hv, generate_content, hb, hbp, hi, hm]] at h
      cases h
  | ok resp2 =>
      rw [show (handle raw beh).1 = .ok resp2
        from by simp [handle, hv, generate_content, hb, hbp, hi, hm]] at h
      cases h
      exact ⟨req, b, bps, r, rfl, rfl, hbp, rfl, hm⟩

/-- The trace of a validated request: either only the text call happened,
or both calls happened in order — and in the latter case the brief was
extracted successfully and carried `bullet_points`. -/
lemma generate_content_trace (req : GenerateRequest) (beh : CollabBehavior) :
    (generate_content req beh).2 = [.textCall (userMessage req)] ∨
    (∃ b bps, create_product_brief beh.text = .ok b ∧
      b.bullet_points = some bps ∧
      (generate_content req beh).2 =
        [.textCall (userMessage req),
         .imageCall (imagePrompt req.product_name bps)]) := by
  cases hb : create_product_brief beh.text with
  | error e => cases e <;> simp [generate_content, hb]
  | ok b =>
      cases hbp : b.bullet_points with
      | none => simp [generate_content, hb, hbp]
      | some bps =>
          right
          refine ⟨b, bps, rfl, hbp, ?_⟩
          cases hi : beh.image with
          | raises msg => simp [generate_content, hb, hbp, hi]
          | replies r =>
              cases hm : mergeResponse b bps (collectImageUrls r) with
              | error e => simp [generate_content, hb, hbp, hi, hm]
              | ok resp => simp [generate_content, hb, hbp, hi, hm]

/-! ## Concrete fixtures for witnesses and counterexamples -/

/-- A valid request body within all field bounds. -/
def rawStd : RawPayload :=
  ⟨some "Wireless Mouse", some ["ergonomic"], some "Germany", some "German"⟩

/-- The validated form of `rawStd`. -/
def reqStd : GenerateRequest :=
  ⟨"Wireless Mouse", ["ergonomic"], "Germany", "German"⟩

/-- A text-collaborator outcome whose reply parses to the given brief. -/
def textReplyOf (b : Brief) : TextOutcome :=
  .replies ⟨some [⟨some [⟨some b⟩]⟩]⟩

/-- A fully well-formed brief: all four keys, three bullet points, one
valid source. -/
def briefStd : Brief :=
  ⟨some "desc", some ["a", "b", "c"], some "blurb",
   some [⟨some "Amazon.de", some "https://amazon.de"⟩]⟩

/-! ## Claims -/

/-- C2: an inbound payload is accepted as a `GenerateRequest` iff
`product_name`, `country` and `language` are present with lengths 2–150,
2–120 and 2–60 respectively, with `keywords` defaulting to the empty
sequence when absent; a payload violating the bounds is rejected with a
client-error status and no collaborator is invoked (empty trace). -/
theorem C2_request_validation (raw : RawPayload) (beh : CollabBehavior) :
    ((validateRequest raw).isSome ↔
      ∃ pn c l, raw.product_name = some pn ∧ raw.country = some c ∧
        raw.language = some l ∧ requestBoundsOk pn c l) ∧
    (∀ req, validateRequest raw = some req →
      raw.product_name = some req.product_name ∧
      raw.country = some req.country ∧
      raw.language = some req.language ∧
      req.keywords = raw.keywords.getD []) ∧
    ((validateRequest raw).isNone →
      handle raw beh = (.error (.http 422 "request validation error"), [])) := by
  rcases raw with ⟨pn, kws, c, l⟩
  refine ⟨?_, ?_, ?_⟩
  · cases pn <;> cases c <;> cases l <;> simp [validateRequest]
  · intro req hreq
    cases pn <;> cases c <;> cases l <;> simp [validateRequest] at hreq
    obtain ⟨-, rfl⟩ := hreq
    simp
  · intro hnone
    rcases hn : validateRequest ⟨pn, kws, c, l⟩ with _ | req
    · simp [handle, hn]
    · rw [hn] at hnone; cases hnone

/-- C2 witness: a `product_name` of length 1 is rejected with the
client-error response and an empty collaborator trace. -/
theorem C2_request_validation_witness :
    handle ⟨some "W", some [], some "Germany", some "German"⟩
        ⟨.raises "boom", .raises "boom"⟩ =
      (.error (.http 422 "request validation error"), []) :=
  (C2_request_validation _ _).2.2 (by decide)

/-- C3: when the text reply lacks the expected parsed content (absent
output item or content node, so `extractParsed` yields `none`), the
request fails with status 502 and detail exactly
`Malformed response from language model`, and no image call appears in
the trace. -/
theorem C3_malformed_brief_reply (raw : RawPayload) (req : GenerateRequest)
    (beh : CollabBehavior) (tr : TextReply)
    (hv : validateRequest raw = some req)
    (ht : beh.text = .replies tr)
    (he : extractParsed tr = none) :
    (handle raw beh).1 =
      .error (.http 502 "Malformed response from language model") ∧
    ∀ p, Event.imageCall p ∉ (handle raw beh).2 := by
  have hb : create_product_brief beh.text =
      .error (.http 502 "Malformed response from language model") := by
    simp [create_product_brief, ht, he]
  refine ⟨by simp [handle, hv, generate_content, hb], ?_⟩
  intro p
  simp [handle, hv, generate_content, hb]

/-- C3 witness: a reply with an empty `output` list triggers the 502 with
the exact detail and no image call. -/
theorem C3_malformed_brief_reply_witness :
    (handle rawStd ⟨.replies ⟨some []⟩, .raises "unused"⟩).1 =
      .error (.http 502 "Malformed response from language model") ∧
    ∀ p, Event.imageCall p ∉
      (handle rawStd ⟨.replies ⟨some []⟩, .raises "unused"⟩).2 :=
  C3_malformed_brief_reply rawStd reqStd _ ⟨some []⟩ (by decide) rfl rfl

/-- C4: when the brief step succeeded (brief extracted, `bullet_points`
present) and the image call raises, the request fails with status 502 and
detail `Image generation failed: ` followed by the upstream error text,
and no response (hence none of the brief content) is returned. -/
theorem C4_image_exception (raw : RawPayload) (req : GenerateRequest)
    (beh : CollabBehavior) (b : Brief) (bps : List String) (msg : String)
    (hv : validateRequest raw = some req)
    (hb : create_product_brief beh.text = .ok b)
    (hbp : b.bullet_points = some bps)
    (hi : beh.image = .raises msg) :
    (handle raw beh).1 =
      .error (.http 502 ("Image generation failed: " ++ msg)) ∧
    ∀ resp, (handle raw beh).1 ≠ .ok resp := by
  have h1 : (handle raw beh).1 =
      .error (.http 502 ("Image generation failed: " ++ msg)) := by
    simp [handle, hv, generate_content, hb, hbp, hi]
  exact ⟨h1, fun resp h2 => by rw [h1] at h2; cases h2⟩

/-- C4 witness: a raising image collaborator after a good brief yields
the prefixed 502 carrying the upstream text. -/
theorem C4_image_exception_witness :
    (handle rawStd ⟨textReplyOf briefStd, .raises "upstream exploded"⟩).1 =
      .error (.http 502 ("Image generation failed: " ++ "upstream exploded")) ∧
    ∀ resp, (handle rawStd ⟨textReplyOf briefStd, .raises "upstream exploded"⟩).1 ≠
      .ok resp :=
  C4_image_exception rawStd reqStd _ briefStd ["a", "b", "c"]
    "upstream exploded" (by decide) rfl rfl rfl

/-- C6: the collaborator trace of any request is sequential and
retry-free — it is empty, or a single text call, or a text call followed
by one image call; an image call occurs only when brief extraction
succeeded with `bullet_points` present.  (The trace records the strictly
sequential awaited calls, so the two calls are never concurrent.) -/
theorem C6_sequential_single_calls (raw : RawPayload) (beh : CollabBehavior) :
    ((handle raw beh).2 = [] ∨
     (∃ m, (handle raw beh).2 = [Event.textCall m]) ∨
     (∃ m p, (handle raw beh).2 = [Event.textCall m, Event.imageCall p])) ∧
    ((∃ m p, (handle raw beh).2 = [Event.textCall m, Event.imageCall p]) →
      ∃ b bps, create_product_brief beh.text = .ok b ∧
        b.bullet_points = some bps) := by
  cases hv : validateRequest raw with
  | none =>
      have ht : (handle raw beh).2 = [] := by simp [handle, hv]
      refine ⟨Or.inl ht, ?_⟩
      rintro ⟨m, p, hmp⟩
      rw [ht] at hmp; cases hmp
  | some req =>
      have hgen : (handle raw beh).2 = (generate_content req beh).2 := by
        simp [handle, hv]
      rcases generate_content_trace req beh with h | ⟨b, bps, hb, hbp, h⟩
      · refine ⟨Or.inr (Or.inl ⟨_, hgen.trans h⟩), ?_⟩
        rintro ⟨m, p, hmp⟩
        rw [hgen, h] at hmp
        simp at hmp
      · exact ⟨Or.inr (Or.inr ⟨_, _, hgen.trans h⟩),
          fun _ => ⟨b, bps, hb, hbp⟩⟩

/-- C6 witness: on a request where both calls happen, the theorem yields
the successful brief extraction behind the image call. -/
theorem C6_sequential_single_calls_witness :
    ∃ b bps,
      create_product_brief
        (CollabBehavior.mk (textReplyOf briefStd)
          (.replies ⟨[⟨some "https://img.example.com/a.png"⟩]⟩)).text = .ok b ∧
      b.bullet_points = some bps :=
  (C6_sequential_single_calls rawStd
      ⟨textReplyOf briefStd, .replies ⟨[⟨some "https://img.example.com/a.png"⟩]⟩⟩).2
    ⟨userMessage reqStd,
     imagePrompt "Wireless Mouse" ["a", "b", "c"], rfl⟩

/-- A brief missing only the `bullet_points` key. -/
def briefNoBullets : Brief := ⟨some "desc", none, some "blurb", some []⟩

/-- Collaborator behaviour replying with `briefNoBullets`. -/
def c1Beh : CollabBehavior := ⟨textReplyOf briefNoBullets, .replies ⟨[]⟩⟩

/-- C1 counterexample: a brief lacking the required `bullet_points` key is
a missing-key shape failure, yet the service answers 502 with detail
`Image generation failed: ...` — which does not start with
`Invalid model response: ` — because `brief[bullet_points]` is read inside
the image try-block. -/
theorem C1_counterexample :
    briefNoBullets.bullet_points = none ∧
    (handle rawStd c1Beh).1 =
      .error (.http 502 "Image generation failed: \x27bullet_points\x27") ∧
    ¬ ∃ rest, "Image generation failed: \x27bullet_points\x27" =
        "Invalid model response: " ++ rest := by
  refine ⟨rfl, by rfl, ?_⟩
  rintro ⟨t, h⟩
  have h1 := congrArg (fun s => s.data[1]?) h
  simp only [String.data_append] at h1
  rw [List.getElem?_append_left
    (show (1 : Nat) < "Invalid model response: ".data.length by decide)] at h1
  exact absurd h1 (by decide)

/-- C1 (amended): when the brief carries `bullet_points`, the image call
returns, and the merged-response construction fails shape validation
(missing `product_description`, `marketing_blurb` or `sources` key,
invalid source, or malformed URL), the service answers 502 with a detail
starting with `Invalid model response: `; a brief lacking only
`bullet_points` instead fails with an `Image generation failed: ` detail,
since that key is read inside the image try-block. -/
theorem C1_merge_failure_detail (raw : RawPayload) (req : GenerateRequest)
    (beh : CollabBehavior) (b : Brief) (bps : List String) (r : ImagesReply)
    (e : String)
    (hv : validateRequest raw = some req)
    (hb : create_product_brief beh.text = .ok b)
    (hbp : b.bullet_points = some bps)
    (hi : beh.image = .replies r)
    (hm : mergeResponse b bps (collectImageUrls r) = .error e) :
    (handle raw beh).1 =
      .error (.http 502 ("Invalid model response: " ++ e)) := by
  simp [handle, hv, generate_content, hb, hbp, hi, hm]

/-- A brief whose single source lacks its `url` key. -/
def briefBadSource : Brief :=
  ⟨some "desc", some ["a", "b", "c"], some "blurb",
   some [⟨some "Amazon.de", none⟩]⟩

/-- C1 witness: a source without `url` makes the merge fail and the
detail carries the `Invalid model response: ` prefix. -/
theorem C1_merge_failure_detail_witness :
    (handle rawStd ⟨textReplyOf briefBadSource, .replies ⟨[]⟩⟩).1 =
      .error (.http 502 ("Invalid model response: " ++
        "1 validation error for Source: url field required")) :=
  C1_merge_failure_detail rawStd reqStd _ briefBadSource ["a", "b", "c"]
    ⟨[]⟩ _ (by decide) rfl rfl rfl (by rfl)

/-- A schema-conformant brief whose description and blurb are empty
strings. -/
def briefEmptyText : Brief :=
  ⟨some "", some ["a", "b", "c"], some "",
   some [⟨some "Amazon.de", some "https://amazon.de"⟩]⟩

/-- Collaborator behaviour where both calls succeed around
`briefEmptyText`. -/
def c5Beh : CollabBehavior :=
  ⟨textReplyOf briefEmptyText, .replies ⟨[⟨some "https://img.example.com/1.png"⟩]⟩⟩

/-- C5 counterexample: both collaborator calls succeed — the brief even
conforms to the requested JSON schema — yet the returned response has an
empty `product_description` and an empty `marketing_blurb`: the code
never checks non-emptiness. -/
theorem C5_counterexample :
    briefConformsSchema briefEmptyText ∧
    ∃ resp, (handle rawStd c5Beh).1 = .ok resp ∧
      resp.product_description = "" ∧ resp.marketing_blurb = "" := by
  refine ⟨⟨rfl, rfl, ⟨["a", "b", "c"], rfl, by decide, by decide⟩,
    ⟨_, rfl, ?_⟩⟩, ?_⟩
  · intro s hs
    rw [List.mem_singleton] at hs
    subst hs
    exact ⟨rfl, rfl⟩
  · exact ⟨⟨"", ["a", "b", "c"], "", ["https://img.example.com/1.png"],
      [⟨"Amazon.de", "https://amazon.de"⟩]⟩, by rfl, rfl, rfl⟩

/-- C5 (amended): for a valid request whose brief call succeeds with a
brief conforming to the requested JSON schema and whose request succeeds,
the response has 3–6 bullet points and every source url and image url
passes the absolute-URI check; the description and blurb are whatever the
brief carried and may be empty (non-emptiness is nowhere enforced). -/
theorem C5_success_shape (raw : RawPayload) (beh : CollabBehavior)
    (b : Brief) (resp : GenerateResponse)
    (hb : create_product_brief beh.text = .ok b)
    (hc : briefConformsSchema b)
    (hok : (handle raw beh).1 = .ok resp) :
    3 ≤ resp.bullet_points.length ∧ resp.bullet_points.length ≤ 6 ∧
    (∀ s ∈ resp.sources, isHttpUrl s.url = true) ∧
    (∀ u ∈ resp.image_urls, isHttpUrl u = true) := by
  obtain ⟨req', b', bps, r, hv', hb', hbp', hi', hm⟩ := handle_ok_inv hok
  rw [hb] at hb'
  cases hb'
  obtain ⟨hpd, hmb, hbps, hurls, hall, srcObjs, hsrc, hvs⟩ :=
    mergeResponse_ok_inv hm
  obtain ⟨-, -, ⟨bps2, hbps2, h3, h6⟩, -⟩ := hc
  have hb2 : bps2 = bps := by
    rw [hbp'] at hbps2
    exact (Option.some.inj hbps2).symm
  subst hb2
  refine ⟨?_, ?_, ?_, ?_⟩
  · rw [hbps]; exact h3
  · rw [hbps]; exact h6
  · intro s hs; exact validateSources_ok_urls hvs s hs
  · intro u hu
    rw [hurls] at hu
    exact List.all_eq_true.mp hall u hu

/-- Collaborator behaviour where both calls succeed around `briefStd`. -/
def behOk : CollabBehavior :=
  ⟨textReplyOf briefStd, .replies ⟨[⟨some "https://img.example.com/a.png"⟩]⟩⟩

/-- The response produced by `behOk` on `rawStd`. -/
def respStd : GenerateResponse :=
  ⟨"desc", ["a", "b", "c"], "blurb", ["https://img.example.com/a.png"],
   [⟨"Amazon.de", "https://amazon.de"⟩]⟩

/-- C5 witness: the amended shape facts hold on a concrete successful
request. -/
theorem C5_success_shape_witness :
    3 ≤ respStd.bullet_points.length ∧ respStd.bullet_points.length ≤ 6 ∧
    (∀ s ∈ respStd.sources, isHttpUrl s.url = true) ∧
    (∀ u ∈ respStd.image_urls, isHttpUrl u = true) := by
  refine C5_success_shape rawStd behOk briefStd respStd rfl
    ⟨rfl, rfl, ⟨["a", "b", "c"], rfl, by decide, by decide⟩, ⟨_, rfl, ?_⟩⟩
    (by rfl)
  intro s hs
  rw [List.mem_singleton] at hs
  subst hs
  exact ⟨rfl, rfl⟩

/-- The accumulator of `String.intercalate.go` only ever grows. -/
lemma intercalate_go_length (s : String) :
    ∀ (l : List String) (acc : String),
      acc.length ≤ (String.intercalate.go acc s l).length
  | [], _ => Nat.le_refl _
  | a :: as, acc => by
      have h1 := intercalate_go_length s as (acc ++ s ++ a)
      have h2 : acc.length ≤ (acc ++ s ++ a).length := by
        simp [String.length_append]
        omega
      exact Nat.le_trans h2 h1

/-- The comma-join of a keyword list is empty exactly for the empty list
and for the single empty keyword. -/
lemma intercalate_comma_eq_empty_iff (l : List String) :
    String.intercalate ", " l = "" ↔ l = [] ∨ l = [""] := by
  rcases l with _ | ⟨a, _ | ⟨b, t⟩⟩
  · exact ⟨fun _ => Or.inl rfl, fun _ => rfl⟩
  · have ha : String.intercalate ", " [a] = a := rfl
    rw [ha]
    constructor
    · intro h; right; rw [h]
    · rintro (h | h)
      · cases h
      · simp at h; rw [h]
  · constructor
    · intro h
      have hlen := intercalate_go_length ", " t (a ++ ", " ++ b)
      have hids : String.intercalate ", " (a :: b :: t) =
          String.intercalate.go (a ++ ", " ++ b) ", " t := rfl
      rw [hids] at h
      rw [h] at hlen
      have h2 : (", " : String).length = 2 := rfl
      simp [String.length_append, h2] at hlen
    · rintro (h | h) <;> cases h

/-- A payload identical to `rawStd` except that `keywords` is the
non-empty sequence holding one empty string. -/
def c7Raw : RawPayload :=
  ⟨some "Wireless Mouse", some [""], some "Germany", some "German"⟩

/-- The validated form of `c7Raw`. -/
def c7Req : GenerateRequest := ⟨"Wireless Mouse", [""], "Germany", "German"⟩

/-- C7 counterexample: with the non-empty keyword sequence `[""]` the
comma-join is falsy in Python, so the user message carries the
placeholder token `(none)` although the keywords sequence is not empty —
the placeholder does not appear *exactly* when the sequence is empty. -/
theorem C7_counterexample :
    validateRequest c7Raw = some c7Req ∧
    c7Req.keywords ≠ [] ∧
    (handle c7Raw ⟨.raises "net down", .raises "net down"⟩).2 =
      [Event.textCall
        "Product name: Wireless Mouse\nKeywords: (none)\nCountry: Germany\nLanguage: German\n"] :=
  ⟨by decide, by decide, by rfl⟩

/-- C7 (amended): the user message submitted to the text collaborator
embeds the product name, country, language and the comma-joined keywords,
with the placeholder token substituted exactly when the comma-join is the
empty string — which happens for the empty keyword sequence and also for
the non-empty sequence `[""]`. -/
theorem C7_user_message_embeds (raw : RawPayload) (req : GenerateRequest)
    (beh : CollabBehavior) (hv : validateRequest raw = some req) :
    (∃ rest, (handle raw beh).2 =
      Event.textCall (
        "Product name: " ++ req.product_name ++
        "\nKeywords: " ++
          (if String.intercalate ", " req.keywords = "" then "(none)"
           else String.intercalate ", " req.keywords) ++
        "\nCountry: " ++ req.country ++
        "\nLanguage: " ++ req.language ++ "\n") :: rest) ∧
    (String.intercalate ", " req.keywords = "" ↔
      req.keywords = [] ∨ req.keywords = [""]) := by
  constructor
  · rcases generate_content_trace req beh with h | ⟨b, bps, hb, hbp, h⟩
    · exact ⟨[], by simp [handle, hv, h]; rfl⟩
    · exact ⟨[.imageCall (imagePrompt req.product_name bps)],
        by simp [handle, hv, h]; rfl⟩
  · exact intercalate_comma_eq_empty_iff req.keywords

/-- C7 witness: on a concrete valid request the first trace event is the
text call with the fully interpolated user message. -/
theorem C7_user_message_embeds_witness :
    (∃ rest, (handle rawStd ⟨.raises "net down", .raises "net down"⟩).2 =
      Event.textCall (
        "Product name: " ++ reqStd.product_name ++
        "\nKeywords: " ++
          (if String.intercalate ", " reqStd.keywords = "" then "(none)"
           else String.intercalate ", " reqStd.keywords) ++
        "\nCountry: " ++ reqStd.country ++
        "\nLanguage: " ++ reqStd.language ++ "\n") :: rest) ∧
    (String.intercalate ", " reqStd.keywords = "" ↔
      reqStd.keywords = [] ∨ reqStd.keywords = [""]) :=
  C7_user_message_embeds rawStd reqStd _ (by decide)

/-- C8: any prompt handed to the image collaborator equals the fixed
studio-photo template with the product name and the `; `-joined first
three bullet points interpolated; when there are at most three bullet
points the `take 3` keeps all of them. -/
theorem C8_image_prompt (raw : RawPayload) (req : GenerateRequest)
    (beh : CollabBehavior) (b : Brief) (bps : List String) (p : String)
    (hv : validateRequest raw = some req)
    (hb : create_product_brief beh.text = .ok b)
    (hbp : b.bullet_points = some bps)
    (hp : Event.imageCall p ∈ (handle raw beh).2) :
    p = "Generate a product photo style image for " ++ "\x27" ++
        req.product_name ++ "\x27" ++
        ". The image should align with the following marketing context: " ++
        String.intercalate "; " (bps.take 3) ++
        ". Style: clean studio lighting, realistic photography." ∧
    (bps.length ≤ 3 → bps.take 3 = bps) := by
  have htr : (handle raw beh).2 = (generate_content req beh).2 := by
    simp [handle, hv]
  rcases generate_content_trace req beh with h | ⟨b', bps', hb', hbp', h⟩
  · rw [htr, h] at hp
    simp at hp
  · rw [htr, h] at hp
    simp at hp
    rw [hb] at hb'
    cases hb'
    have hbpeq : bps' = bps := by
      rw [hbp] at hbp'
      exact (Option.some.inj hbp').symm
    subst hbpeq
    exact ⟨hp, fun hlen => List.take_of_length_le hlen⟩

/-- A brief with only two bullet points (fewer than three). -/
def briefTwo : Brief := ⟨some "d", some ["x", "y"], some "m", some []⟩

/-- C8 witness: with two bullet points the prompt joins both of them. -/
theorem C8_image_prompt_witness :
    imagePrompt "Wireless Mouse" ["x", "y"] =
      "Generate a product photo style image for " ++ "\x27" ++
        "Wireless Mouse" ++ "\x27" ++
        ". The image should align with the following marketing context: " ++
        String.intercalate "; " ((["x", "y"] : List String).take 3) ++
        ". Style: clean studio lighting, realistic photography." ∧
    ((["x", "y"] : List String).length ≤ 3 →
      (["x", "y"] : List String).take 3 = ["x", "y"]) :=
  C8_image_prompt rawStd reqStd ⟨textReplyOf briefTwo, .replies ⟨[]⟩⟩
    briefTwo ["x", "y"] (imagePrompt "Wireless Mouse" ["x", "y"])
    (by decide) rfl rfl (by exact List.Mem.tail _ (List.Mem.head _))

/-- C9: when the image call returns a reply `r`, any successful response
carries exactly `collectImageUrls r` — the non-empty url values in
collaborator order — as its `image_urls`; and when that list is empty the
request still succeeds (provided the merge of the brief itself passes),
with `image_urls = []`: no minimum image count is enforced. -/
theorem C9_image_urls (raw : RawPayload) (req : GenerateRequest)
    (beh : CollabBehavior) (b : Brief) (bps : List String) (r : ImagesReply)
    (hv : validateRequest raw = some req)
    (hb : create_product_brief beh.text = .ok b)
    (hbp : b.bullet_points = some bps)
    (hi : beh.image = .replies r) :
    (∀ resp, (handle raw beh).1 = .ok resp →
      resp.image_urls = collectImageUrls r) ∧
    (collectImageUrls r = [] →
      ∀ resp, mergeResponse b bps [] = .ok resp →
        (handle raw beh).1 = .ok resp ∧ resp.image_urls = []) := by
  constructor
  · intro resp hok
    obtain ⟨req', b', bps', r', hv', hb', hbp', hi', hm⟩ := handle_ok_inv hok
    rw [hi] at hi'
    cases hi'
    exact (mergeResponse_ok_inv hm).2.2.2.1
  · intro hempty resp hm
    have hm2 : mergeResponse b bps (collectImageUrls r) = .ok resp := by
      rw [hempty]; exact hm
    have h1 := handle_ok_of hv hb hbp hi hm2
    refine ⟨by rw [h1], ?_⟩
    have := (mergeResponse_ok_inv hm).2.2.2.1
    simpa using this

/-- Collaborator behaviour whose image reply has no usable url. -/
def c9Beh : CollabBehavior :=
  ⟨textReplyOf briefStd, .replies ⟨[⟨some ""⟩, ⟨none⟩]⟩⟩

/-- C9 witness: a reply whose items all lack a non-empty url still
succeeds, with empty `image_urls`. -/
theorem C9_image_urls_witness :
    (handle rawStd c9Beh).1 =
      .ok ⟨"desc", ["a", "b", "c"], "blurb", [],
        [⟨"Amazon.de", "https://amazon.de"⟩]⟩ ∧
    (⟨"desc", ["a", "b", "c"], "blurb", [],
      [⟨"Amazon.de", "https://amazon.de"⟩]⟩ : GenerateResponse).image_urls = [] :=
  (C9_image_urls rawStd reqStd c9Beh briefStd ["a", "b", "c"]
      ⟨[⟨some ""⟩, ⟨none⟩]⟩ (by decide) rfl rfl rfl).2 rfl _ (by rfl)

/-- C10: the merge step copies the brief's `product_description`,
`bullet_points` and `marketing_blurb` into the response verbatim with no
constraint on their length, emptiness or item count; the only conditions
for success are that every source object validates (`name` present, `url`
present and a well-formed absolute URI) and every image url passes the
URI check. -/
theorem C10_merge_passthrough (raw : RawPayload) (req : GenerateRequest)
    (beh : CollabBehavior) (tr : TextReply) (pd mb : String)
    (bps : List String) (srcObjs : List SourceObj) (vs : List Source)
    (r : ImagesReply)
    (hv : validateRequest raw = some req)
    (ht : beh.text = .replies tr)
    (he : extractParsed tr = some ⟨some pd, some bps, some mb, some srcObjs⟩)
    (hi : beh.image = .replies r)
    (hs : validateSources srcObjs = .ok vs)
    (hu : (collectImageUrls r).all isHttpUrl = true) :
    (handle raw beh).1 = .ok ⟨pd, bps, mb, collectImageUrls r, vs⟩ := by
  have hb : create_product_brief beh.text =
      .ok ⟨some pd, some bps, some mb, some srcObjs⟩ := by
    simp [create_product_brief, ht, he]
  have hm := mergeResponse_ok_of pd (some bps) mb bps (collectImageUrls r)
    srcObjs vs hs hu
  rw [handle_ok_of hv hb rfl hi hm]

/-- A brief with empty description and blurb and seven bullet points —
all outside the response-model bounds the spec suggests. -/
def briefWild : Brief :=
  ⟨some "", some ["1", "2", "3", "4", "5", "6", "7"], some "", some []⟩

/-- C10 witness: empty strings and seven bullet points pass through the
merge untouched. -/
theorem C10_merge_passthrough_witness :
    (handle rawStd ⟨textReplyOf briefWild, .replies ⟨[]⟩⟩).1 =
      .ok ⟨"", ["1", "2", "3", "4", "5", "6", "7"], "", [], []⟩ :=
  C10_merge_passthrough rawStd reqStd ⟨textReplyOf briefWild, .replies ⟨[]⟩⟩
    ⟨some [⟨some [⟨some briefWild⟩]⟩]⟩ "" ""
    ["1", "2", "3", "4", "5", "6", "7"] [] [] ⟨[]⟩
    (by decide) rfl rfl rfl rfl rfl

end CatalogBuilder
